import Mathlib

/-!
Shallow embedding of the A-Frame `animation` component
(`src/components/animation/index.js`).

The component is a state-coordination layer over external collaborators
(the anime.js tween engine, the A-Frame entity/property reflection API,
the coordinate-string parser, THREE.Math.degToRad, the DOM event system
and the setTimeout host timer).  Those externals are modelled by an
`Env` record of injected functions and by an explicit host clock / timer
queue inside the component state; everything declared in the source file
itself (schema data, config building, lifecycle handlers, event wiring,
`getPropertyType`, `toRadians`) is translated function by function.

The scalar type `R` of animated numeric values is a parameter: the
lifecycle theorems instantiate it with `ℚ` (so that concrete runs are
decidable), and the rotation/radians theorem instantiates it with `ℝ`
(where `π` lives).
-/

namespace Anim

/-- `loop` schema values: `'true'`/`'false'` parse to booleans, anything
else through `parseInt` (modelled as the already-parsed integer). -/
inductive LoopVal where
  | b (v : Bool)
  | n (v : Int)
deriving DecidableEq, Repr

/-- The component schema data (`this.data`), lines 25-47 of the source.
`from` and `to` are Lean keywords, hence the field names `from_`, `to_`. -/
structure AnimData where
  delay : Nat := 0
  dir : String := ""
  dur : Nat := 1000
  easing : String := "easeInQuad"
  elasticity : Nat := 400
  from_ : String := ""
  loop : LoopVal := LoopVal.n 0
  property : String := ""
  startEvents : List String := []
  pauseEvents : List String := []
  resumeEvents : List String := []
  restartEvents : List String := []
  to_ : String := ""
deriving DecidableEq, Repr

/-- An `{x, y, z}` record as produced by `AFRAME.utils.coordinates.parse`
or read off the entity for a vector-typed property. -/
structure Vec3 (R : Type) where
  x : R
  y : R
  z : R
deriving DecidableEq, Repr

/-- `config.targets` as set by the two config builders: either still the
initial bare config, a one-element array holding the resolved from
vector (line 169), or the `{aframeProperty: from}` wrapper object of the
generic path (line 137). -/
inductive ConfigTargets (R : Type) where
  | unset
  | vector (v : Vec3 R)
  | generic (aframeProperty : String)
deriving DecidableEq, Repr

/-- Which `config.update` callback was wired by the config builder. -/
inductive UpdateKind where
  | unset
  | object3DCopy (property : String)
  | animVector (property : String)
  | genericSet (property : String)
deriving DecidableEq, Repr

/-- The anime.js configuration object `this.config`.  It is created once
in `init` (holding only the `complete` callback, which is external) and
mutated in place by `update` / the config builders; fields not yet
assigned are `none`. -/
structure Config (R : Type) where
  autoplay : Option Bool := none
  direction : Option String := none
  duration : Option Nat := none
  easing : Option String := none
  elasticity : Option Nat := none
  loop : Option LoopVal := none
  targets : ConfigTargets R := ConfigTargets.unset
  x : Option R := none
  y : Option R := none
  z : Option R := none
  aframeProperty : Option String := none
  updateKind : UpdateKind := UpdateKind.unset
deriving DecidableEq, Repr

/-- The four handlers bound once in `init` (lines 59-62).  Binding fixes
their identity, so add/removeEventListener can compare them; the model
therefore identifies a bound handler with this enum. -/
inductive Handler where
  | beginAnimation
  | pauseAnimation
  | resumeAnimation
  | restartAnimation
deriving DecidableEq, Repr

/-- A component schema as consulted by `getPropertyType`:
`schema.type` for single-prop components, `schema[propertyName].type`
for multi-prop ones. -/
structure CompSchema where
  singleType : Option String
  propType : String → Option String

/-- External collaborators (out of scope for the source file): the
coordinate parser, the property-reflection getters, the component/schema
registries and `THREE.Math.degToRad`. -/
structure Env (R : Type) where
  /-- `AFRAME.utils.coordinates.parse`. -/
  parse : String → Vec3 R
  /-- `getComponentProperty(el, property)` for a vector-typed property. -/
  getComponentPropertyVec : String → Vec3 R
  /-- `getComponentProperty(el, property)` on the generic path. -/
  getComponentPropertyRaw : String → String
  /-- `el.components[componentName]` lookup. -/
  elComponents : String → Option CompSchema
  /-- `AFRAME.components[componentName]` registry lookup. -/
  aframeComponents : String → Option CompSchema
  /-- `THREE.Math.degToRad` (mathematically `d * π / 180`). -/
  degToRad : R → R

/-- The full component state: `this.*` members, the DOM listener table of
the entity, the trace of events emitted on the entity, and the host
clock with its pending `setTimeout` callbacks. -/
structure State (R : Type) where
  data : AnimData
  time : Nat
  animationIsPlaying : Bool
  paused : Bool
  pausedWasPlaying : Bool
  config : Config R
  /-- `this.animation`: the handle returned by `anime(this.config)`,
  identified with the config it was built from. -/
  animation : Option (Config R)
  /-- How many times `anime(...)` was invoked (handle creations). -/
  animeCalls : Nat
  /-- The entity's listener table: `(eventName, handler)` pairs in DOM
  registration order; `addEventListener` deduplicates identical pairs. -/
  listeners : List (String × Handler)
  /-- Events emitted on the entity via `el.emit`, oldest first. -/
  emitted : List String
  /-- Host wall clock in milliseconds. -/
  now : Nat
  /-- Pending `setTimeout` callbacks as (absolute fire time, callback). -/
  timers : List (Nat × Handler)
deriving DecidableEq

/-- Character-level worker for `splitDot`. -/
def splitDotAux : List Char → List Char → List String
  | [], acc => [acc.reverse.asString]
  | c :: cs, acc =>
      if c = '.' then acc.reverse.asString :: splitDotAux cs []
      else splitDotAux cs (c :: acc)

/-- JS `property.split('.')`: split the property path on dots
(`"a.b"` to `["a", "b"]`, `"a"` to `["a"]`, `""` to `[""]`). -/
def splitDot (property : String) : List String :=
  splitDotAux property.toList []

/-- `getPropertyType` (source lines 264-286): split the property path,
look the component up on the entity then in the registry, and read the
declared type from the (possibly multi-prop) schema.  A dangling
`propertyName` of `""` is falsy in JS and behaves like no property name. -/
def getPropertyType {R : Type} (env : Env R) (property : String) : Option String :=
  let split := splitDot property
  let componentName := split.headD ""
  let propertyName := (split.get? 1).getD ""
  match (env.elComponents componentName).orElse (fun _ => env.aframeComponents componentName) with
  | none => none
  | some component =>
    if propertyName ≠ "" then
      match component.propType propertyName with
      | none => none
      | some t => some t
    else component.singleType

/-- `toRadians` (source lines 291-295): convert each of x, y, z through
`THREE.Math.degToRad`. -/
def toRadians {R : Type} (env : Env R) (obj : Vec3 R) : Vec3 R :=
  { x := env.degToRad obj.x, y := env.degToRad obj.y, z := env.degToRad obj.z }

/-- The base config assignments of `update` (source lines 82-87). -/
def baseConfig {R : Type} (data : AnimData) (config : Config R) : Config R :=
  { config with
      autoplay := some false
      direction := some data.dir
      duration := some data.dur
      easing := some data.easing
      elasticity := some data.elasticity
      loop := some data.loop }

/-- `updateConfigForVector` acting on the config object (source lines
148-185): resolve `from` from the attribute or the entity, parse `to`,
convert both through radians when animating `rotation`, extend x/y/z
onto the config, and wire the appropriate update callback. -/
def vectorConfig {R : Type} (env : Env R) (data : AnimData) (config : Config R) : Config R :=
  let fromV := if data.from_ ≠ "" then env.parse data.from_
               else env.getComponentPropertyVec data.property
  let toV := env.parse data.to_
  let fromV := if data.property = "rotation" then toRadians env fromV else fromV
  let toV := if data.property = "rotation" then toRadians env toV else toV
  { config with
      targets := ConfigTargets.vector fromV
      x := some toV.x
      y := some toV.y
      z := some toV.z
      updateKind :=
        if data.property = "position" ∨ data.property = "rotation" ∨ data.property = "scale"
        then UpdateKind.object3DCopy data.property
        else UpdateKind.animVector data.property }

/-- `updateConfigForDefault` acting on the config object (source lines
130-142): stuff the resolved from value into the generic
`aframeProperty` key and set the to value on the same key. -/
def genericConfig {R : Type} (env : Env R) (data : AnimData) (config : Config R) : Config R :=
  let fromS := if data.from_ ≠ "" then data.from_
               else env.getComponentPropertyRaw data.property
  { config with
      targets := ConfigTargets.generic fromS
      aframeProperty := some data.to_
      updateKind := UpdateKind.genericSet data.property }

/-- `this.updateConfigForVector` (the config is the only member it
mutates). -/
def updateConfigForVector {R : Type} (env : Env R) (s : State R) : State R :=
  { s with config := vectorConfig env s.data s.config }

/-- `this.updateConfigForDefault`. -/
def updateConfigForDefault {R : Type} (env : Env R) (s : State R) : State R :=
  { s with config := genericConfig env s.data s.config }

/-- DOM `el.addEventListener`: appends, but an identical
(event, handler) pair is registered at most once. -/
def domAddEventListener (ls : List (String × Handler)) (name : String) (h : Handler) :
    List (String × Handler) :=
  if (name, h) ∈ ls then ls else ls ++ [(name, h)]

/-- DOM `el.removeEventListener`: removes the matching pair. -/
def domRemoveEventListener (ls : List (String × Handler)) (name : String) (h : Handler) :
    List (String × Handler) :=
  ls.erase (name, h)

/-- Free function `addEventListeners(el, eventNames, handler)`
(source lines 297-302). -/
def addEventListenersOn (ls : List (String × Handler)) (eventNames : List String)
    (h : Handler) : List (String × Handler) :=
  eventNames.foldl (fun acc name => domAddEventListener acc name h) ls

/-- Free function `removeEventListeners(el, eventNames, handler)`
(source lines 304-309). -/
def removeEventListenersOn (ls : List (String × Handler)) (eventNames : List String)
    (h : Handler) : List (String × Handler) :=
  eventNames.foldl (fun acc name => domRemoveEventListener acc name h) ls

/-- Method `this.addEventListeners` (source lines 241-248). -/
def addEventListeners {R : Type} (s : State R) : State R :=
  let ls := addEventListenersOn s.listeners s.data.startEvents Handler.beginAnimation
  let ls := addEventListenersOn ls s.data.pauseEvents Handler.pauseAnimation
  let ls := addEventListenersOn ls s.data.resumeEvents Handler.resumeAnimation
  let ls := addEventListenersOn ls s.data.restartEvents Handler.restartAnimation
  { s with listeners := ls }

/-- Method `this.removeEventListeners` (source lines 250-257). -/
def removeEventListeners {R : Type} (s : State R) : State R :=
  let ls := removeEventListenersOn s.listeners s.data.startEvents Handler.beginAnimation
  let ls := removeEventListenersOn ls s.data.pauseEvents Handler.pauseAnimation
  let ls := removeEventListenersOn ls s.data.resumeEvents Handler.resumeAnimation
  let ls := removeEventListenersOn ls s.data.restartEvents Handler.restartAnimation
  { s with listeners := ls }

/-- `pauseAnimation` (source lines 224-226). -/
def pauseAnimation {R : Type} (s : State R) : State R :=
  { s with animationIsPlaying := false }

/-- `beginAnimation` (source lines 228-231): unconditionally set playing
and emit `animationbegin`. -/
def beginAnimation {R : Type} (s : State R) : State R :=
  { s with animationIsPlaying := true, emitted := s.emitted ++ ["animationbegin"] }

/-- `resumeAnimation` (source lines 237-239). -/
def resumeAnimation {R : Type} (s : State R) : State R :=
  { s with animationIsPlaying := true }

/-- `createAndStartAnimation` (source lines 192-222). -/
def createAndStartAnimation {R : Type} (env : Env R) (isRestarting : Bool)
    (s : State R) : State R :=
  let propType := getPropertyType env s.data.property
  let s1 := if propType = some "vec2" ∨ propType = some "vec3" ∨ propType = some "vec4"
            then updateConfigForVector env s
            else updateConfigForDefault env s
  let s2 := { s1 with animationIsPlaying := false }
  let s3 := { s2 with animation := some s2.config, animeCalls := s2.animeCalls + 1 }
  let s4 := addEventListeners (removeEventListeners s3)
  if isRestarting = false ∧ s4.data.delay ≠ 0 then
    { s4 with timers := s4.timers ++ [(s4.now + s4.data.delay, Handler.beginAnimation)] }
  else if isRestarting = false ∧ s4.data.startEvents.length ≠ 0 then s4
  else beginAnimation s4

/-- `restartAnimation` (source lines 233-235). -/
def restartAnimation {R : Type} (env : Env R) (s : State R) : State R :=
  createAndStartAnimation env s.animationIsPlaying s

/-- Running one of the four bound handlers. -/
def runHandler {R : Type} (env : Env R) (h : Handler) (s : State R) : State R :=
  match h with
  | Handler.beginAnimation => beginAnimation s
  | Handler.pauseAnimation => pauseAnimation s
  | Handler.resumeAnimation => resumeAnimation s
  | Handler.restartAnimation => restartAnimation env s

/-- The handlers currently registered for an event name, in order. -/
def handlersFor {R : Type} (s : State R) (name : String) : List Handler :=
  (s.listeners.filter (fun p => p.1 = name)).map (fun p => p.2)

/-- DOM event dispatch on the entity: run each handler registered for
the event, in registration order (snapshot taken at dispatch start). -/
def dispatchEvent {R : Type} (env : Env R) (name : String) (s : State R) : State R :=
  (handlersFor s name).foldl (fun acc h => runHandler env h acc) s

/-- `update` (source lines 71-94).  The host has already replaced
`this.data` with the new data when this runs. -/
def update {R : Type} (env : Env R) (data : AnimData) (s0 : State R) : State R :=
  let s := { s0 with data := data, animationIsPlaying := false }
  if data.property = "" then s
  else
    let s := { s with config := baseConfig data s.config }
    let s := pauseAnimation s
    createAndStartAnimation env false s

/-- `tick` (source lines 96-100): while playing, advance the elapsed
time by the frame delta (the subsequent `this.animation.tick(this.time)`
call into the tween engine is external). -/
def tick {R : Type} (s : State R) (t dt : Nat) : State R :=
  if s.animationIsPlaying = false then s
  else { s with time := s.time + dt }

/-- Host `remove` lifecycle handler (source lines 102-105). -/
def remove {R : Type} (s : State R) : State R :=
  removeEventListeners (pauseAnimation s)

/-- Host `pause` lifecycle handler (source lines 107-112). -/
def pause {R : Type} (s : State R) : State R :=
  removeEventListeners (pauseAnimation { s with paused := true, pausedWasPlaying := true })

/-- Host `play` lifecycle handler (source lines 117-125), only for
resuming the scene.  (`addEventListeners` does not touch
`pausedWasPlaying`, so testing the flag before or after re-attaching the
listeners is equivalent.) -/
def play {R : Type} (s : State R) : State R :=
  if s.paused = false then s
  else if s.pausedWasPlaying = true then
    { resumeAnimation (addEventListeners { s with paused := false }) with
        pausedWasPlaying := false }
  else addEventListeners { s with paused := false }

/-- Fire every pending `setTimeout` callback that has become due, in
scheduling order. -/
def fireDue {R : Type} (env : Env R) (s : State R) : State R :=
  ((s.timers.filter (fun p => decide (p.1 ≤ s.now))).map (fun p => p.2)).foldl
    (fun acc h => runHandler env h acc)
    { s with timers := s.timers.filter (fun p => !decide (p.1 ≤ s.now)) }

/-- Advance the host clock by one millisecond and fire due timers. -/
def stepMs {R : Type} (env : Env R) (s : State R) : State R :=
  fireDue env { s with now := s.now + 1 }

/-- Advance the host clock by `k` milliseconds with no component ticks
and no external events arriving: only `setTimeout` callbacks run. -/
def advance {R : Type} (env : Env R) (s : State R) : Nat → State R
  | 0 => s
  | Nat.succ k => advance env (stepMs env s) k

/-- `init` (source lines 51-69): fresh member state. -/
def init (R : Type) (data : AnimData) : State R :=
  { data := data
    time := 0
    animationIsPlaying := false
    paused := false
    pausedWasPlaying := false
    config := {}
    animation := none
    animeCalls := 0
    listeners := []
    emitted := []
    now := 0
    timers := [] }

/-- The host-visible operations that can reach the component: each is a
host-dispatched synchronous callback. -/
inductive Op where
  | dataChanged (data : AnimData)
  | tickEv (t dt : Nat)
  | hostPause
  | hostPlay
  | detach
  | dispatchEv (name : String)
  | clockStep
deriving Repr

/-- Apply one host operation. -/
def applyOp {R : Type} (env : Env R) (s : State R) : Op → State R
  | Op.dataChanged data => update env data s
  | Op.tickEv t dt => tick s t dt
  | Op.hostPause => pause s
  | Op.hostPlay => play s
  | Op.detach => remove s
  | Op.dispatchEv name => dispatchEvent env name s
  | Op.clockStep => stepMs env s

/-- Apply a sequence of host operations in order. -/
def applyOps {R : Type} (env : Env R) (s : State R) (ops : List Op) : State R :=
  ops.foldl (applyOp env) s

/-! ### Concrete sample environments and attribute values

Used to instantiate the theorems below on closed inputs. -/

/-- A small concrete rational-valued environment: `position`, `rotation`
and `scale` are registered single-prop `vec3` components, everything
else is unregistered (generic path). -/
def envQ : Env ℚ :=
  { parse := fun str =>
      if str = "0 90 0" then ⟨0, 90, 0⟩
      else if str = "1 2 3" then ⟨1, 2, 3⟩
      else ⟨0, 0, 0⟩
    getComponentPropertyVec := fun _ => ⟨5, 6, 7⟩
    getComponentPropertyRaw := fun _ => "current"
    elComponents := fun name =>
      if name = "position" ∨ name = "rotation" ∨ name = "scale"
      then some ⟨some "vec3", fun _ => none⟩ else none
    aframeComponents := fun _ => none
    degToRad := id }

/-- Attributes with no start events and no delay. -/
def dImm : AnimData := { property := "opacity", to_ := "1 2 3" }

/-- Attributes whose animation starts on event `"a"`. -/
def dA : AnimData := { property := "opacity", startEvents := ["a"] }

/-- Attributes whose animation starts on event `"b"`. -/
def dB : AnimData := { property := "opacity", startEvents := ["b"] }

/-- Attributes with a 5 ms start delay. -/
def dDelay : AnimData := { property := "opacity", delay := 5 }

/-- Attributes whose animation waits for start event `"go"`. -/
def dWait : AnimData := { property := "opacity", startEvents := ["go"], restartEvents := ["again"] }

/-- Attributes animating the `position` vector. -/
def dVec : AnimData := { property := "position", to_ := "1 2 3" }

/-- A component that was rebuilt with `dWait` and is waiting on its
start event: not playing. -/
def sWait : State ℚ := update envQ dWait (init ℚ dWait)

/-- A playing `position` animation (no start events, so `update` began
it immediately). -/
def sVec : State ℚ := update envQ dVec (init ℚ dVec)

/-- A concrete real-valued environment whose `degToRad` is the honest
degree-to-radian conversion and where `rotation` is a `vec3` component. -/
noncomputable def envR : Env ℝ :=
  { parse := fun str => if str = "0 90 0" then ⟨0, 90, 0⟩ else ⟨0, 0, 0⟩
    getComponentPropertyVec := fun _ => ⟨10, 20, 30⟩
    getComponentPropertyRaw := fun _ => ""
    elComponents := fun name =>
      if name = "rotation" then some ⟨some "vec3", fun _ => none⟩ else none
    aframeComponents := fun _ => none
    degToRad := fun d => d * (Real.pi / 180) }

/-- Attributes animating `rotation` to `"0 90 0"`. -/
def dRot : AnimData := { property := "rotation", to_ := "0 90 0" }

/-- Attributes with the (default) empty target property. -/
def dEmpty : AnimData := {}

/-- The listener table resulting from `this.addEventListeners`. -/
def rewireAdd {R : Type} (s : State R) : List (String × Handler) :=
  addEventListenersOn
    (addEventListenersOn
      (addEventListenersOn
        (addEventListenersOn s.listeners s.data.startEvents Handler.beginAnimation)
        s.data.pauseEvents Handler.pauseAnimation)
      s.data.resumeEvents Handler.resumeAnimation)
    s.data.restartEvents Handler.restartAnimation

/-- The listener table resulting from `this.removeEventListeners`. -/
def rewireRemove {R : Type} (s : State R) : List (String × Handler) :=
  removeEventListenersOn
    (removeEventListenersOn
      (removeEventListenersOn
        (removeEventListenersOn s.listeners s.data.startEvents Handler.beginAnimation)
        s.data.pauseEvents Handler.pauseAnimation)
      s.data.resumeEvents Handler.resumeAnimation)
    s.data.restartEvents Handler.restartAnimation

/-! ### Helper lemmas -/

/-- A property preserved by each step of a fold is preserved by the fold. -/
theorem foldlPreserve {α β : Type} (P : α → Prop) (f : α → β → α)
    (hf : ∀ a b, P a → P (f a b)) : ∀ (l : List β) (a : α), P a → P (l.foldl f a)
  | [], _, ha => ha
  | b :: l, a, ha => foldlPreserve P f hf l (f a b) (hf a b ha)

theorem updateConfigForVector_eq {R : Type} (env : Env R) (s : State R) :
    updateConfigForVector env s = { s with config := vectorConfig env s.data s.config } := rfl

theorem updateConfigForDefault_eq {R : Type} (env : Env R) (s : State R) :
    updateConfigForDefault env s = { s with config := genericConfig env s.data s.config } := rfl

theorem addEventListeners_eq {R : Type} (s : State R) :
    addEventListeners s = { s with listeners := rewireAdd s } := rfl

theorem removeEventListeners_eq {R : Type} (s : State R) :
    removeEventListeners s = { s with listeners := rewireRemove s } := rfl

theorem createAndStartAnimation_time {R : Type} (env : Env R) (r : Bool) (s : State R) :
    (createAndStartAnimation env r s).time = s.time := by
  simp only [createAndStartAnimation, updateConfigForVector_eq, updateConfigForDefault_eq,
    addEventListeners_eq, removeEventListeners_eq, beginAnimation]
  split_ifs <;> rfl

theorem createAndStartAnimation_data {R : Type} (env : Env R) (r : Bool) (s : State R) :
    (createAndStartAnimation env r s).data = s.data := by
  simp only [createAndStartAnimation, updateConfigForVector_eq, updateConfigForDefault_eq,
    addEventListeners_eq, removeEventListeners_eq, beginAnimation]
  split_ifs <;> rfl

theorem runHandler_time {R : Type} (env : Env R) (h : Handler) (s : State R) :
    (runHandler env h s).time = s.time := by
  cases h <;>
    simp only [runHandler, beginAnimation, pauseAnimation, resumeAnimation, restartAnimation,
      createAndStartAnimation_time]

theorem dispatchEvent_time {R : Type} (env : Env R) (name : String) (s : State R) :
    (dispatchEvent env name s).time = s.time := by
  unfold dispatchEvent
  exact foldlPreserve (fun x => x.time = s.time)
    (fun acc h => runHandler env h acc)
    (fun a b ha => by show (runHandler env b a).time = s.time; rw [runHandler_time]; exact ha)
    (handlersFor s name) s rfl

theorem fireDue_time {R : Type} (env : Env R) (s : State R) :
    (fireDue env s).time = s.time := by
  unfold fireDue
  exact foldlPreserve (fun x => x.time = s.time)
    (fun acc h => runHandler env h acc)
    (fun a b ha => by show (runHandler env b a).time = s.time; rw [runHandler_time]; exact ha)
    ((s.timers.filter (fun p => decide (p.1 ≤ s.now))).map (fun p => p.2))
    { s with timers := s.timers.filter (fun p => !decide (p.1 ≤ s.now)) } rfl

theorem stepMs_time {R : Type} (env : Env R) (s : State R) :
    (stepMs env s).time = s.time := by
  unfold stepMs; rw [fireDue_time]

theorem update_time {R : Type} (env : Env R) (data : AnimData) (s : State R) :
    (update env data s).time = s.time := by
  unfold update
  split
  · rfl
  · rw [createAndStartAnimation_time]; rfl

theorem play_time {R : Type} (s : State R) :
    (play s).time = s.time := by
  unfold play
  split_ifs <;> rfl

theorem applyOp_time_mono {R : Type} (env : Env R) (s : State R) (o : Op) :
    s.time ≤ (applyOp env s o).time := by
  cases o with
  | dataChanged data => rw [applyOp, update_time]
  | tickEv t dt =>
      simp only [applyOp, tick]
      split
      · exact le_refl _
      · exact Nat.le_add_right _ _
  | hostPause => exact le_of_eq rfl
  | hostPlay => rw [applyOp, play_time]
  | detach => exact le_of_eq rfl
  | dispatchEv name => rw [applyOp, dispatchEvent_time]
  | clockStep => rw [applyOp, stepMs_time]

theorem applyOps_time_mono {R : Type} (env : Env R) :
    ∀ (ops : List Op) (s : State R), s.time ≤ (applyOps env s ops).time
  | [], _ => le_refl _
  | o :: ops, s =>
      le_trans (applyOp_time_mono env s o) (applyOps_time_mono env ops (applyOp env s o))

theorem domAddEventListener_nodup (ls : List (String × Handler)) (name : String)
    (h : Handler) (hnd : ls.Nodup) : (domAddEventListener ls name h).Nodup := by
  unfold domAddEventListener
  split
  · exact hnd
  · rename_i hmem
    simp [List.nodup_append, hnd, hmem]

theorem domRemoveEventListener_nodup (ls : List (String × Handler)) (name : String)
    (h : Handler) (hnd : ls.Nodup) : (domRemoveEventListener ls name h).Nodup :=
  hnd.erase (name, h)

theorem addEventListenersOn_nodup (ls : List (String × Handler)) (names : List String)
    (h : Handler) (hnd : ls.Nodup) : (addEventListenersOn ls names h).Nodup :=
  foldlPreserve List.Nodup (fun acc name => domAddEventListener acc name h)
    (fun a b ha => domAddEventListener_nodup a b h ha) names ls hnd

theorem removeEventListenersOn_nodup (ls : List (String × Handler)) (names : List String)
    (h : Handler) (hnd : ls.Nodup) : (removeEventListenersOn ls names h).Nodup :=
  foldlPreserve List.Nodup (fun acc name => domRemoveEventListener acc name h)
    (fun a b ha => domRemoveEventListener_nodup a b h ha) names ls hnd

theorem rewireAdd_nodup {R : Type} (s : State R) (hnd : s.listeners.Nodup) :
    (rewireAdd s).Nodup :=
  addEventListenersOn_nodup _ _ _
    (addEventListenersOn_nodup _ _ _
      (addEventListenersOn_nodup _ _ _
        (addEventListenersOn_nodup _ _ _ hnd)))

theorem rewireRemove_nodup {R : Type} (s : State R) (hnd : s.listeners.Nodup) :
    (rewireRemove s).Nodup :=
  removeEventListenersOn_nodup _ _ _
    (removeEventListenersOn_nodup _ _ _
      (removeEventListenersOn_nodup _ _ _
        (removeEventListenersOn_nodup _ _ _ hnd)))

theorem createAndStartAnimation_nodup {R : Type} (env : Env R) (r : Bool) (s : State R)
    (hnd : s.listeners.Nodup) : (createAndStartAnimation env r s).listeners.Nodup := by
  simp only [createAndStartAnimation, updateConfigForVector_eq, updateConfigForDefault_eq,
    addEventListeners_eq, removeEventListeners_eq, beginAnimation]
  split_ifs <;> exact rewireAdd_nodup _ (rewireRemove_nodup _ hnd)

theorem runHandler_nodup {R : Type} (env : Env R) (h : Handler) (s : State R)
    (hnd : s.listeners.Nodup) : (runHandler env h s).listeners.Nodup := by
  cases h with
  | beginAnimation => exact hnd
  | pauseAnimation => exact hnd
  | resumeAnimation => exact hnd
  | restartAnimation => exact createAndStartAnimation_nodup env _ s hnd

theorem dispatchEvent_nodup {R : Type} (env : Env R) (name : String) (s : State R)
    (hnd : s.listeners.Nodup) : (dispatchEvent env name s).listeners.Nodup := by
  unfold dispatchEvent
  exact foldlPreserve (fun x => x.listeners.Nodup)
    (fun acc h => runHandler env h acc)
    (fun a b ha => runHandler_nodup env b a ha)
    (handlersFor s name) s hnd

theorem fireDue_nodup {R : Type} (env : Env R) (s : State R)
    (hnd : s.listeners.Nodup) : (fireDue env s).listeners.Nodup := by
  unfold fireDue
  exact foldlPreserve (fun x => x.listeners.Nodup)
    (fun acc h => runHandler env h acc)
    (fun a b ha => runHandler_nodup env b a ha)
    ((s.timers.filter (fun p => decide (p.1 ≤ s.now))).map (fun p => p.2))
    { s with timers := s.timers.filter (fun p => !decide (p.1 ≤ s.now)) } hnd

theorem stepMs_nodup {R : Type} (env : Env R) (s : State R)
    (hnd : s.listeners.Nodup) : (stepMs env s).listeners.Nodup :=
  fireDue_nodup env _ hnd

theorem update_nodup {R : Type} (env : Env R) (data : AnimData) (s : State R)
    (hnd : s.listeners.Nodup) : (update env data s).listeners.Nodup := by
  unfold update
  split
  · exact hnd
  · exact createAndStartAnimation_nodup env false _ hnd

theorem pause_nodup {R : Type} (s : State R) (hnd : s.listeners.Nodup) :
    (pause s).listeners.Nodup := by
  rw [pause, removeEventListeners_eq]
  exact rewireRemove_nodup _ hnd

theorem play_nodup {R : Type} (s : State R) (hnd : s.listeners.Nodup) :
    (play s).listeners.Nodup := by
  unfold play
  split_ifs
  · exact hnd
  · exact rewireAdd_nodup _ hnd
  · exact rewireAdd_nodup _ hnd

theorem remove_nodup {R : Type} (s : State R) (hnd : s.listeners.Nodup) :
    (remove s).listeners.Nodup := by
  rw [remove, removeEventListeners_eq]
  exact rewireRemove_nodup _ hnd

theorem applyOp_nodup {R : Type} (env : Env R) (s : State R) (o : Op)
    (hnd : s.listeners.Nodup) : (applyOp env s o).listeners.Nodup := by
  cases o with
  | dataChanged data => exact update_nodup env data s hnd
  | tickEv t dt =>
      show (tick s t dt).listeners.Nodup
      unfold tick
      split <;> exact hnd
  | hostPause => exact pause_nodup s hnd
  | hostPlay => exact play_nodup s hnd
  | detach => exact remove_nodup s hnd
  | dispatchEv name => exact dispatchEvent_nodup env name s hnd
  | clockStep => exact stepMs_nodup env s hnd

theorem applyOps_nodup {R : Type} (env : Env R) :
    ∀ (ops : List Op) (s : State R), s.listeners.Nodup → (applyOps env s ops).listeners.Nodup
  | [], _, hnd => hnd
  | o :: ops, s, hnd =>
      applyOps_nodup env ops (applyOp env s o) (applyOp_nodup env s o hnd)

theorem domAddEventListener_mem_self (ls : List (String × Handler)) (name : String)
    (h : Handler) : (name, h) ∈ domAddEventListener ls name h := by
  unfold domAddEventListener
  split
  · assumption
  · exact List.mem_append_right _ (List.mem_singleton_self _)

theorem domAddEventListener_mem_mono (ls : List (String × Handler)) (name : String)
    (h : Handler) (x : String × Handler) (hx : x ∈ ls) :
    x ∈ domAddEventListener ls name h := by
  unfold domAddEventListener
  split
  · exact hx
  · exact List.mem_append_left _ hx

theorem addEventListenersOn_mem_mono (names : List String) (h : Handler)
    (x : String × Handler) :
    ∀ (ls : List (String × Handler)), x ∈ ls → x ∈ addEventListenersOn ls names h :=
  fun ls hx =>
    foldlPreserve (fun l => x ∈ l) (fun acc name => domAddEventListener acc name h)
      (fun a b ha => domAddEventListener_mem_mono a b h x ha) names ls hx

theorem addEventListenersOn_mem_self (h : Handler) (name : String) :
    ∀ (names : List String) (ls : List (String × Handler)), name ∈ names →
      (name, h) ∈ addEventListenersOn ls names h
  | [], _, hn => absurd hn (List.not_mem_nil _)
  | m :: names, ls, hn => by
      rw [addEventListenersOn, List.foldl_cons]
      rcases List.mem_cons.mp hn with h1 | h2
      · subst h1
        exact addEventListenersOn_mem_mono names h (name, h) _
          (domAddEventListener_mem_self ls name h)
      · exact addEventListenersOn_mem_self h name names _ h2

theorem rewireAdd_mem_start {R : Type} (s : State R) (name : String)
    (hn : name ∈ s.data.startEvents) : (name, Handler.beginAnimation) ∈ rewireAdd s :=
  addEventListenersOn_mem_mono _ _ _ _
    (addEventListenersOn_mem_mono _ _ _ _
      (addEventListenersOn_mem_mono _ _ _ _
        (addEventListenersOn_mem_self _ _ _ _ hn)))

theorem rewireAdd_mem_pause {R : Type} (s : State R) (name : String)
    (hn : name ∈ s.data.pauseEvents) : (name, Handler.pauseAnimation) ∈ rewireAdd s :=
  addEventListenersOn_mem_mono _ _ _ _
    (addEventListenersOn_mem_mono _ _ _ _
      (addEventListenersOn_mem_self _ _ _ _ hn))

theorem rewireAdd_mem_resume {R : Type} (s : State R) (name : String)
    (hn : name ∈ s.data.resumeEvents) : (name, Handler.resumeAnimation) ∈ rewireAdd s :=
  addEventListenersOn_mem_mono _ _ _ _
    (addEventListenersOn_mem_self _ _ _ _ hn)

theorem rewireAdd_mem_restart {R : Type} (s : State R) (name : String)
    (hn : name ∈ s.data.restartEvents) : (name, Handler.restartAnimation) ∈ rewireAdd s :=
  addEventListenersOn_mem_self _ _ _ _ hn

theorem createAndStartAnimation_mem {R : Type} (env : Env R) (r : Bool) (s : State R)
    (x : String × Handler) (hx : x ∈ rewireAdd (removeEventListeners s)) :
    x ∈ (createAndStartAnimation env r s).listeners := by
  simp only [createAndStartAnimation, updateConfigForVector_eq, updateConfigForDefault_eq,
    addEventListeners_eq, removeEventListeners_eq, beginAnimation]
  split_ifs <;> exact hx

theorem createAndStartAnimation_restarting {R : Type} (env : Env R) (s : State R) :
    (createAndStartAnimation env true s).animationIsPlaying = true ∧
    (createAndStartAnimation env true s).emitted = s.emitted ++ ["animationbegin"] ∧
    (createAndStartAnimation env true s).timers = s.timers ∧
    (createAndStartAnimation env true s).now = s.now := by
  simp only [createAndStartAnimation, updateConfigForVector_eq, updateConfigForDefault_eq,
    addEventListeners_eq, removeEventListeners_eq, beginAnimation]
  split_ifs <;> first | exact ⟨rfl, rfl, rfl, rfl⟩ | simp_all

theorem createAndStartAnimation_delay {R : Type} (env : Env R) (s : State R)
    (hdelay : s.data.delay ≠ 0) :
    (createAndStartAnimation env false s).animationIsPlaying = false ∧
    (createAndStartAnimation env false s).emitted = s.emitted ∧
    (createAndStartAnimation env false s).timers =
      s.timers ++ [(s.now + s.data.delay, Handler.beginAnimation)] ∧
    (createAndStartAnimation env false s).now = s.now := by
  simp only [createAndStartAnimation, updateConfigForVector_eq, updateConfigForDefault_eq,
    addEventListeners_eq, removeEventListeners_eq, beginAnimation]
  split_ifs <;> first | exact ⟨rfl, rfl, rfl, rfl⟩ | simp_all

theorem createAndStartAnimation_wait {R : Type} (env : Env R) (s : State R)
    (hdelay : s.data.delay = 0) (hstart : s.data.startEvents ≠ []) :
    (createAndStartAnimation env false s).animationIsPlaying = false ∧
    (createAndStartAnimation env false s).emitted = s.emitted ∧
    (createAndStartAnimation env false s).timers = s.timers ∧
    (createAndStartAnimation env false s).now = s.now := by
  have hlen : s.data.startEvents.length ≠ 0 := by
    simpa [List.length_eq_zero] using hstart
  simp only [createAndStartAnimation, updateConfigForVector_eq, updateConfigForDefault_eq,
    addEventListeners_eq, removeEventListeners_eq, beginAnimation]
  split_ifs <;> first | exact ⟨rfl, rfl, rfl, rfl⟩ | simp_all

theorem createAndStartAnimation_immediate {R : Type} (env : Env R) (s : State R)
    (hdelay : s.data.delay = 0) (hstart : s.data.startEvents = []) :
    (createAndStartAnimation env false s).animationIsPlaying = true ∧
    (createAndStartAnimation env false s).emitted = s.emitted ++ ["animationbegin"] ∧
    (createAndStartAnimation env false s).timers = s.timers ∧
    (createAndStartAnimation env false s).now = s.now := by
  simp only [createAndStartAnimation, updateConfigForVector_eq, updateConfigForDefault_eq,
    addEventListeners_eq, removeEventListeners_eq, beginAnimation]
  split_ifs <;> first | exact ⟨rfl, rfl, rfl, rfl⟩ | simp_all

theorem createAndStartAnimation_config_vec3 {R : Type} (env : Env R) (r : Bool)
    (s : State R) (htype : getPropertyType env s.data.property = some "vec3") :
    (createAndStartAnimation env r s).config = vectorConfig env s.data s.config ∧
    (createAndStartAnimation env r s).animation = some (vectorConfig env s.data s.config) := by
  simp only [createAndStartAnimation, updateConfigForVector_eq, updateConfigForDefault_eq,
    addEventListeners_eq, removeEventListeners_eq, beginAnimation, htype]
  split_ifs <;> first | exact ⟨rfl, rfl⟩ | simp_all

theorem vectorConfig_fields {R : Type} (env : Env R) (data : AnimData) (config : Config R)
    (hrot : data.property ≠ "rotation") :
    (vectorConfig env data config).targets = ConfigTargets.vector
      (if data.from_ ≠ "" then env.parse data.from_
       else env.getComponentPropertyVec data.property) ∧
    (vectorConfig env data config).x = some (env.parse data.to_).x ∧
    (vectorConfig env data config).y = some (env.parse data.to_).y ∧
    (vectorConfig env data config).z = some (env.parse data.to_).z := by
  simp [vectorConfig, hrot]

theorem vectorConfig_rotation {R : Type} (env : Env R) (data : AnimData) (config : Config R)
    (hrot : data.property = "rotation") :
    (vectorConfig env data config).targets = ConfigTargets.vector
      (toRadians env (if data.from_ ≠ "" then env.parse data.from_
                      else env.getComponentPropertyVec data.property)) ∧
    (vectorConfig env data config).x = some (env.degToRad (env.parse data.to_).x) ∧
    (vectorConfig env data config).y = some (env.degToRad (env.parse data.to_).y) ∧
    (vectorConfig env data config).z = some (env.degToRad (env.parse data.to_).z) := by
  simp [vectorConfig, hrot, toRadians]

theorem advance_succ {R : Type} (env : Env R) (s : State R) (k : Nat) :
    advance env s (k + 1) = advance env (stepMs env s) k := rfl

theorem stepMs_no_timers {R : Type} (env : Env R) (s : State R) (h : s.timers = []) :
    stepMs env s = { s with now := s.now + 1 } := by
  simp [stepMs, fireDue, h]

theorem advance_no_timers {R : Type} (env : Env R) :
    ∀ (k : Nat) (s : State R), s.timers = [] →
      (advance env s k).animationIsPlaying = s.animationIsPlaying ∧
      (advance env s k).emitted = s.emitted ∧
      (advance env s k).timers = [] ∧
      (advance env s k).now = s.now + k ∧
      (advance env s k).time = s.time
  | 0, s, h => ⟨rfl, rfl, h, rfl, rfl⟩
  | k + 1, s, h => by
      rw [advance_succ, stepMs_no_timers env s h]
      obtain ⟨h1, h2, h3, h4, h5⟩ :=
        advance_no_timers env k { s with now := s.now + 1 } h
      refine ⟨h1, h2, h3, ?_, h5⟩
      rw [h4]
      show s.now + 1 + k = s.now + (k + 1)
      omega

theorem stepMs_single_begin_fire {R : Type} (env : Env R) (s : State R) (T : Nat)
    (hT : s.timers = [(T, Handler.beginAnimation)]) (hle : T ≤ s.now + 1) :
    stepMs env s = { s with now := s.now + 1, timers := [], animationIsPlaying := true, emitted := s.emitted ++ ["animationbegin"] } := by
  simp [stepMs, fireDue, hT, hle, runHandler, beginAnimation]

theorem stepMs_single_begin_skip {R : Type} (env : Env R) (s : State R) (T : Nat)
    (hT : s.timers = [(T, Handler.beginAnimation)]) (hgt : ¬ T ≤ s.now + 1) :
    stepMs env s = { s with now := s.now + 1, timers := [(T, Handler.beginAnimation)] } := by
  simp [stepMs, fireDue, hT, hgt]

/-- Behaviour of the clock when exactly one `setTimeout(beginAnimation)`
callback is pending: nothing observable happens strictly before the fire
time, and from the fire time on the component is playing and has emitted
exactly one more `animationbegin`. -/
theorem advance_single_begin {R : Type} (env : Env R) (T : Nat) :
    ∀ (k : Nat) (s : State R), s.timers = [(T, Handler.beginAnimation)] → s.now < T →
      ((s.now + k < T →
          (advance env s k).animationIsPlaying = s.animationIsPlaying ∧
          (advance env s k).emitted = s.emitted) ∧
       (T ≤ s.now + k →
          (advance env s k).animationIsPlaying = true ∧
          (advance env s k).emitted = s.emitted ++ ["animationbegin"]))
  | 0, s, hT, hnow => by
      refine ⟨fun _ => ⟨rfl, rfl⟩, fun hle => absurd hle (by omega)⟩
  | k + 1, s, hT, hnow => by
      rw [advance_succ]
      by_cases hc : T ≤ s.now + 1
      · rw [stepMs_single_begin_fire env s T hT hc]
        obtain ⟨h1, h2, _, _, _⟩ := advance_no_timers env k
          { s with now := s.now + 1, timers := [], animationIsPlaying := true, emitted := s.emitted ++ ["animationbegin"] } rfl
        exact ⟨fun hlt => absurd hlt (by omega), fun _ => ⟨h1, h2⟩⟩
      · rw [stepMs_single_begin_skip env s T hT hc]
        obtain ⟨hbefore, hafter⟩ := advance_single_begin env T k
          { s with now := s.now + 1, timers := [(T, Handler.beginAnimation)] } rfl
          (by dsimp only; omega)
        dsimp only at hbefore hafter
        exact ⟨fun hlt => hbefore (by omega), fun hle => hafter (by omega)⟩

/-- `update` with a non-empty target property and a non-zero delay:
not playing, nothing emitted, and one `beginAnimation` timeout scheduled
`delay` ms in the future. -/
theorem update_delay_spec {R : Type} (env : Env R) (data : AnimData) (s : State R)
    (hprop : data.property ≠ "") (hdelay : data.delay ≠ 0) :
    (update env data s).animationIsPlaying = false ∧
    (update env data s).emitted = s.emitted ∧
    (update env data s).timers = s.timers ++ [(s.now + data.delay, Handler.beginAnimation)] ∧
    (update env data s).now = s.now := by
  unfold update
  rw [if_neg hprop]
  exact createAndStartAnimation_delay env _ hdelay

/-- `update` with a non-empty target property, zero delay and a
non-empty `startEvents` list: armed and waiting, nothing emitted, no
timeout scheduled. -/
theorem update_wait_spec {R : Type} (env : Env R) (data : AnimData) (s : State R)
    (hprop : data.property ≠ "") (hdelay : data.delay = 0)
    (hstart : data.startEvents ≠ []) :
    (update env data s).animationIsPlaying = false ∧
    (update env data s).emitted = s.emitted ∧
    (update env data s).timers = s.timers ∧
    (update env data s).now = s.now := by
  unfold update
  rw [if_neg hprop]
  exact createAndStartAnimation_wait env _ hdelay hstart

/-- `update` with a non-empty target property, zero delay and no start
events: playing immediately, with exactly one `animationbegin` emitted. -/
theorem update_immediate_spec {R : Type} (env : Env R) (data : AnimData) (s : State R)
    (hprop : data.property ≠ "") (hdelay : data.delay = 0)
    (hstart : data.startEvents = []) :
    (update env data s).animationIsPlaying = true ∧
    (update env data s).emitted = s.emitted ++ ["animationbegin"] ∧
    (update env data s).timers = s.timers ∧
    (update env data s).now = s.now := by
  unfold update
  rw [if_neg hprop]
  exact createAndStartAnimation_immediate env _ hdelay hstart

/-! ### Claim theorems -/

/-- Claim C1: the accumulated elapsed-time counter `this.time` is
monotonically non-decreasing under every sequence of host operations; a
`tick` adds exactly the frame delta while `animationIsPlaying` is true
and is a complete no-op while it is false; and a pause (trigger-level or
host-level) followed by the matching resume leaves the accumulated
elapsed time exactly as it was at the moment of pause. -/
theorem animC1_elapsed_time (env : Env ℚ) (s : State ℚ) (t dt : Nat) (ops : List Op) :
    s.time ≤ (applyOps env s ops).time ∧
    (s.animationIsPlaying = true → (tick s t dt).time = s.time + dt) ∧
    (s.animationIsPlaying = false → tick s t dt = s) ∧
    (resumeAnimation (pauseAnimation s)).time = s.time ∧
    (play (pause s)).time = s.time := by
  refine ⟨applyOps_time_mono env ops s, ?_, ?_, rfl, play_time _⟩
  · intro h; simp [tick, h]
  · intro h; simp [tick, h]

/-- Witness for C1 at concrete states: a playing animation ticks by the
frame delta, a waiting one is untouched, and pause/resume round-trips
preserve the elapsed time. -/
theorem animC1_elapsed_time_witness :
    sVec.animationIsPlaying = true ∧ (tick sVec 0 16).time = sVec.time + 16 ∧
    sWait.animationIsPlaying = false ∧ tick sWait 0 16 = sWait ∧
    (resumeAnimation (pauseAnimation sVec)).time = sVec.time ∧
    (play (pause sVec)).time = sVec.time :=
  ⟨by decide,
   (animC1_elapsed_time envQ sVec 0 16 []).2.1 (by decide),
   by decide,
   (animC1_elapsed_time envQ sWait 0 16 []).2.2.1 (by decide),
   (animC1_elapsed_time envQ sVec 0 16 []).2.2.2.1,
   (animC1_elapsed_time envQ sVec 0 16 []).2.2.2.2⟩

/-- Claim C2 counterexample: `removeEventListeners` during a rebuild
iterates over the NEW data's trigger lists (`this.data` has already been
replaced when `update` runs), so a listener registered under an earlier
config for an event name that the new config does not mention survives
the rebuild: after rebuilding from `startEvents=["a"]` to
`startEvents=["b"]`, the handler is still registered on `"a"` although
`"a"` appears in none of the current trigger lists. -/
theorem animC2_stale_listener_survives :
    ("a", Handler.beginAnimation) ∈ (update envQ dB (update envQ dA (init ℚ dA))).listeners ∧
    "a" ∉ dB.startEvents ∧ "a" ∉ dB.pauseEvents ∧
    "a" ∉ dB.resumeEvents ∧ "a" ∉ dB.restartEvents := by
  decide

/-- Claim C2 (amended): on every rebuild the component unsubscribes and
re-subscribes using the same four bound handler references, but over the
CURRENT trigger lists only.  Consequently (i) the entity's listener
table never contains a duplicate (event, handler) registration under any
sequence of host operations, and (ii) after a rebuild every event name
of the current trigger lists is registered with its handler — but
listeners attached under an earlier config for event names absent from
the current lists survive (see the counterexample). -/
theorem animC2_rewire_amended (env : Env ℚ) (data0 data : AnimData) (ops : List Op)
    (s : State ℚ) (hprop : data.property ≠ "") :
    ((applyOps env (init ℚ data0) ops).listeners).Nodup ∧
    (∀ n ∈ data.startEvents, (n, Handler.beginAnimation) ∈ (update env data s).listeners) ∧
    (∀ n ∈ data.pauseEvents, (n, Handler.pauseAnimation) ∈ (update env data s).listeners) ∧
    (∀ n ∈ data.resumeEvents, (n, Handler.resumeAnimation) ∈ (update env data s).listeners) ∧
    (∀ n ∈ data.restartEvents, (n, Handler.restartAnimation) ∈ (update env data s).listeners) := by
  refine ⟨applyOps_nodup env ops _ List.nodup_nil, ?_, ?_, ?_, ?_⟩ <;>
    intro n hn <;>
    (unfold update; rw [if_neg hprop])
  · exact createAndStartAnimation_mem env false _ _ (rewireAdd_mem_start _ n hn)
  · exact createAndStartAnimation_mem env false _ _ (rewireAdd_mem_pause _ n hn)
  · exact createAndStartAnimation_mem env false _ _ (rewireAdd_mem_resume _ n hn)
  · exact createAndStartAnimation_mem env false _ _ (rewireAdd_mem_restart _ n hn)

/-- Witness for the amended C2: no duplicates after two rebuilds, and the
current config's start/restart triggers are registered after a rebuild. -/
theorem animC2_rewire_amended_witness :
    ((applyOps envQ (init ℚ dA) [Op.dataChanged dA, Op.dataChanged dB]).listeners).Nodup ∧
    ("go", Handler.beginAnimation) ∈ (update envQ dWait (init ℚ dWait)).listeners ∧
    ("again", Handler.restartAnimation) ∈ (update envQ dWait (init ℚ dWait)).listeners := by
  obtain ⟨h1, h2, _, _, h5⟩ := animC2_rewire_amended envQ dA dWait
    [Op.dataChanged dA, Op.dataChanged dB] (init ℚ dWait) (by decide)
  exact ⟨h1, h2 "go" (by decide), h5 "again" (by decide)⟩

/-- Claim C3 counterexample: a start-delay timeout scheduled by one
config is not guarded against a rebuild.  Rebuild with `delay = 5`, then
rebuild again with a config that waits on start event `"go"`; when the
stale timeout fires at 5 ms the component transitions to Playing and
emits `animationbegin` on behalf of the superseded configuration. -/
theorem animC3_stale_timer_fires :
    (update envQ dWait (update envQ dDelay (init ℚ dDelay))).timers =
      [(5, Handler.beginAnimation)] ∧
    (update envQ dWait (update envQ dDelay (init ℚ dDelay))).animationIsPlaying = false ∧
    (advance envQ (update envQ dWait (update envQ dDelay (init ℚ dDelay))) 5).animationIsPlaying = true ∧
    (advance envQ (update envQ dWait (update envQ dDelay (init ℚ dDelay))) 5).emitted =
      ["animationbegin"] := by
  decide

/-- Claim C3 (amended): the stale start-delay callback performs NO
re-check of current state.  `setTimeout` schedules the bound
`beginAnimation`, which unconditionally sets `animationIsPlaying` and
emits `animationbegin`; so if the parameters are rebuilt before the
timer fires (here: into a config that should be waiting on its start
events), the stale callback still transitions the component to Playing
and emits a begin notification for the superseded configuration. -/
theorem animC3_stale_timer_unguarded (env : Env ℚ) (d1 d2 : AnimData) (s0 : State ℚ)
    (h0 : s0.timers = []) (hp1 : d1.property ≠ "") (hd1 : d1.delay ≠ 0)
    (hp2 : d2.property ≠ "") (hd2 : d2.delay = 0) (hs2 : d2.startEvents ≠ [])
    (k : Nat) (hk : d1.delay ≤ k) :
    (advance env (update env d2 (update env d1 s0)) k).animationIsPlaying = true ∧
    (advance env (update env d2 (update env d1 s0)) k).emitted =
      s0.emitted ++ ["animationbegin"] := by
  obtain ⟨hA1, hA2, hA3, hA4⟩ := update_delay_spec env d1 s0 hp1 hd1
  obtain ⟨hB1, hB2, hB3, hB4⟩ := update_wait_spec env d2 (update env d1 s0) hp2 hd2 hs2
  have hT : (update env d2 (update env d1 s0)).timers =
      [(s0.now + d1.delay, Handler.beginAnimation)] := by
    rw [hB3, hA3, h0]; simp
  have hnow2 : (update env d2 (update env d1 s0)).now = s0.now := by rw [hB4, hA4]
  obtain ⟨_, hafter⟩ := advance_single_begin env (s0.now + d1.delay) k
    (update env d2 (update env d1 s0)) hT (by omega)
  have h := hafter (by omega)
  refine ⟨h.1, ?_⟩
  rw [h.2, hB2, hA2]

/-- Witness for the amended C3 at the concrete scenario of the
counterexample, two milliseconds after the stale fire time. -/
theorem animC3_stale_timer_unguarded_witness :
    (advance envQ (update envQ dWait (update envQ dDelay (init ℚ dDelay))) 7).animationIsPlaying = true ∧
    (advance envQ (update envQ dWait (update envQ dDelay (init ℚ dDelay))) 7).emitted =
      (init ℚ dDelay).emitted ++ ["animationbegin"] :=
  animC3_stale_timer_unguarded envQ dDelay dWait (init ℚ dDelay) rfl
    (by decide) (by decide) (by decide) rfl (by decide) 7 (by decide)

/-- Claim C4 (code bug): `pause()` sets `this.pausedWasPlaying = true`
unconditionally (line 109) instead of recording `animationIsPlaying`, so
a host pause followed by a host play always calls `resumeAnimation` and
sets `animationIsPlaying` to true — even when the animation was NOT
mid-play at the moment of the host pause.  No `animationbegin` is
emitted on the resume path, as the claim states. -/
theorem animC4_pause_play_always_resumes (s : State ℚ) (h : s.animationIsPlaying = false) :
    s.animationIsPlaying = false ∧
    (play (pause s)).animationIsPlaying = true ∧
    (play (pause s)).emitted = s.emitted := by
  refine ⟨h, ?_, ?_⟩ <;>
    simp [play, pause, pauseAnimation, resumeAnimation,
      removeEventListeners_eq, addEventListeners_eq]

/-- Witness for C4 at the failing input: a component armed and waiting
on its start event (not playing) becomes playing after a host
pause/play round trip. -/
theorem animC4_pause_play_always_resumes_witness :
    sWait.animationIsPlaying = false ∧
    (play (pause sWait)).animationIsPlaying = true ∧
    (play (pause sWait)).emitted = sWait.emitted :=
  animC4_pause_play_always_resumes sWait (by decide)

/-- Claim C5: for a config with a non-empty target property, empty
`startEvents` and zero delay, the rebuild path transitions the component
to Playing immediately and emits exactly one `animationbegin`, with no
tick or external event needed. -/
theorem animC5_immediate_play (env : Env ℚ) (data : AnimData) (s : State ℚ)
    (hprop : data.property ≠ "") (hstart : data.startEvents = []) (hdelay : data.delay = 0) :
    (update env data s).animationIsPlaying = true ∧
    (update env data s).emitted = s.emitted ++ ["animationbegin"] := by
  obtain ⟨h1, h2, _, _⟩ := update_immediate_spec env data s hprop hdelay hstart
  exact ⟨h1, h2⟩

/-- Witness for C5 on a concrete config. -/
theorem animC5_immediate_play_witness :
    (update envQ dImm (init ℚ dImm)).animationIsPlaying = true ∧
    (update envQ dImm (init ℚ dImm)).emitted = (init ℚ dImm).emitted ++ ["animationbegin"] :=
  animC5_immediate_play envQ dImm (init ℚ dImm) (by decide) rfl rfl

/-- Claim C6: for a config with `delay > 0` and no start-trigger firing,
the component rebuilt with no other pending timeouts is not Playing and
has emitted nothing before `delay` simulated milliseconds have elapsed,
and from `delay` milliseconds on it is Playing and has emitted exactly
one `animationbegin`. -/
theorem animC6_delay_exactly_once (env : Env ℚ) (data : AnimData) (s0 : State ℚ)
    (hprop : data.property ≠ "") (hdelay : data.delay ≠ 0) (ht : s0.timers = []) :
    (update env data s0).animationIsPlaying = false ∧
    (update env data s0).emitted = s0.emitted ∧
    (∀ k, k < data.delay →
      (advance env (update env data s0) k).animationIsPlaying = false ∧
      (advance env (update env data s0) k).emitted = s0.emitted) ∧
    (∀ k, data.delay ≤ k →
      (advance env (update env data s0) k).animationIsPlaying = true ∧
      (advance env (update env data s0) k).emitted = s0.emitted ++ ["animationbegin"]) := by
  obtain ⟨h1, h2, h3, h4⟩ := update_delay_spec env data s0 hprop hdelay
  have hT : (update env data s0).timers = [(s0.now + data.delay, Handler.beginAnimation)] := by
    rw [h3, ht]; simp
  have hlt : (update env data s0).now < s0.now + data.delay := by rw [h4]; omega
  refine ⟨h1, h2, ?_, ?_⟩
  · intro k hk
    obtain ⟨hbef, _⟩ :=
      advance_single_begin env (s0.now + data.delay) k (update env data s0) hT hlt
    have h := hbef (by rw [h4]; omega)
    exact ⟨by rw [h.1, h1], by rw [h.2, h2]⟩
  · intro k hk
    obtain ⟨_, haft⟩ :=
      advance_single_begin env (s0.now + data.delay) k (update env data s0) hT hlt
    have h := haft (by rw [h4]; omega)
    exact ⟨h.1, by rw [h.2, h2]⟩

/-- Witness for C6 with `delay = 5`: not playing at 4 ms, playing with a
single begin notification at 5 ms. -/
theorem animC6_delay_exactly_once_witness :
    (update envQ dDelay (init ℚ dDelay)).animationIsPlaying = false ∧
    (advance envQ (update envQ dDelay (init ℚ dDelay)) 4).animationIsPlaying = false ∧
    (advance envQ (update envQ dDelay (init ℚ dDelay)) 5).animationIsPlaying = true ∧
    (advance envQ (update envQ dDelay (init ℚ dDelay)) 5).emitted =
      (init ℚ dDelay).emitted ++ ["animationbegin"] := by
  obtain ⟨h1, _, h3, h4⟩ :=
    animC6_delay_exactly_once envQ dDelay (init ℚ dDelay) (by decide) (by decide) rfl
  exact ⟨h1, (h3 4 (by decide)).1, (h4 5 (by decide)).1, (h4 5 (by decide)).2⟩

/-- Claim C7: a restart-trigger rebuilds the config from scratch —
re-resolving `from` against the entity's state at the moment of restart
(read through `getComponentPropertyVec` when no explicit `from` is
supplied) and re-parsing `to` — and passes `animationIsPlaying` as
`isRestarting`, so the delay and start-event gating are skipped (ending
up Playing immediately, with a begin notification) exactly when the
animation was already playing when the trigger fired; when it was not
playing, the delay/start-event gating applies as on a normal rebuild. -/
theorem animC7_restart_rebuild (env : Env ℚ) (s : State ℚ)
    (htype : getPropertyType env s.data.property = some "vec3")
    (hfrom : s.data.from_ = "") (hrot : s.data.property ≠ "rotation") :
    (restartAnimation env s).config.targets =
      ConfigTargets.vector (env.getComponentPropertyVec s.data.property) ∧
    (restartAnimation env s).config.x = some (env.parse s.data.to_).x ∧
    (restartAnimation env s).config.y = some (env.parse s.data.to_).y ∧
    (restartAnimation env s).config.z = some (env.parse s.data.to_).z ∧
    (s.animationIsPlaying = true →
      (restartAnimation env s).animationIsPlaying = true ∧
      (restartAnimation env s).emitted = s.emitted ++ ["animationbegin"] ∧
      (restartAnimation env s).timers = s.timers) ∧
    (s.animationIsPlaying = false → s.data.delay ≠ 0 →
      (restartAnimation env s).animationIsPlaying = false ∧
      (restartAnimation env s).emitted = s.emitted ∧
      (restartAnimation env s).timers =
        s.timers ++ [(s.now + s.data.delay, Handler.beginAnimation)]) ∧
    (s.animationIsPlaying = false → s.data.delay = 0 → s.data.startEvents ≠ [] →
      (restartAnimation env s).animationIsPlaying = false ∧
      (restartAnimation env s).emitted = s.emitted ∧
      (restartAnimation env s).timers = s.timers) := by
  obtain ⟨hc, _⟩ := createAndStartAnimation_config_vec3 env s.animationIsPlaying s htype
  obtain ⟨ht1, ht2, ht3, ht4⟩ := vectorConfig_fields env s.data s.config hrot
  refine ⟨?_, ?_, ?_, ?_, ?_, ?_, ?_⟩
  · show (createAndStartAnimation env s.animationIsPlaying s).config.targets = _
    rw [hc, ht1]; simp [hfrom]
  · show (createAndStartAnimation env s.animationIsPlaying s).config.x = _
    rw [hc, ht2]
  · show (createAndStartAnimation env s.animationIsPlaying s).config.y = _
    rw [hc, ht3]
  · show (createAndStartAnimation env s.animationIsPlaying s).config.z = _
    rw [hc, ht4]
  · intro hp
    unfold restartAnimation
    rw [hp]
    obtain ⟨p1, p2, p3, _⟩ := createAndStartAnimation_restarting env s
    exact ⟨p1, p2, p3⟩
  · intro hp hd
    unfold restartAnimation
    rw [hp]
    obtain ⟨p1, p2, p3, _⟩ := createAndStartAnimation_delay env s hd
    exact ⟨p1, p2, p3⟩
  · intro hp hd hst
    unfold restartAnimation
    rw [hp]
    obtain ⟨p1, p2, p3, _⟩ := createAndStartAnimation_wait env s hd hst
    exact ⟨p1, p2, p3⟩

/-- Witness for C7: restarting the playing `position` animation rebuilds
the config from the entity's current property value and begins playing
immediately with a begin notification. -/
theorem animC7_restart_rebuild_witness :
    (restartAnimation envQ sVec).config.targets =
      ConfigTargets.vector (envQ.getComponentPropertyVec sVec.data.property) ∧
    (restartAnimation envQ sVec).animationIsPlaying = true ∧
    (restartAnimation envQ sVec).emitted = sVec.emitted ++ ["animationbegin"] := by
  obtain ⟨h1, _, _, _, h5, _, _⟩ :=
    animC7_restart_rebuild envQ sVec (by decide) rfl (by decide)
  have h := h5 (by decide)
  exact ⟨h1, h.1, h.2.1⟩

/-- Claim C8: when the target property is `rotation` (a `vec3` transform
channel), both the resolved `from` vector and the resolved `to` vector
are converted component-wise from degrees to radians (`d` to
`d * π / 180`) by `toRadians` before the config is handed to the tween
engine via `anime(this.config)`; in particular `to = "0 90 0"` yields an
end value of `π / 2` on the `y` key. -/
theorem animC8_rotation_radians (env : Env ℝ) (s : State ℝ)
    (hrot : s.data.property = "rotation")
    (htype : getPropertyType env s.data.property = some "vec3")
    (hdeg : ∀ d, env.degToRad d = d * (Real.pi / 180)) :
    (createAndStartAnimation env false s).animation =
      some ((createAndStartAnimation env false s).config) ∧
    (createAndStartAnimation env false s).config.targets = ConfigTargets.vector
      { x := (if s.data.from_ ≠ "" then env.parse s.data.from_ else env.getComponentPropertyVec s.data.property).x * (Real.pi / 180),
        y := (if s.data.from_ ≠ "" then env.parse s.data.from_ else env.getComponentPropertyVec s.data.property).y * (Real.pi / 180),
        z := (if s.data.from_ ≠ "" then env.parse s.data.from_ else env.getComponentPropertyVec s.data.property).z * (Real.pi / 180) } ∧
    (createAndStartAnimation env false s).config.x =
      some ((env.parse s.data.to_).x * (Real.pi / 180)) ∧
    (createAndStartAnimation env false s).config.y =
      some ((env.parse s.data.to_).y * (Real.pi / 180)) ∧
    (createAndStartAnimation env false s).config.z =
      some ((env.parse s.data.to_).z * (Real.pi / 180)) ∧
    ((env.parse s.data.to_).y = 90 →
      (createAndStartAnimation env false s).config.y = some (Real.pi / 2)) := by
  obtain ⟨hc, ha⟩ := createAndStartAnimation_config_vec3 env false s htype
  obtain ⟨h1, h2, h3, h4⟩ := vectorConfig_rotation env s.data s.config hrot
  refine ⟨by rw [ha, hc], ?_, ?_, ?_, ?_, ?_⟩
  · rw [hc, h1]
    simp [toRadians, hdeg]
  · rw [hc, h2, hdeg]
  · rw [hc, h3, hdeg]
  · rw [hc, h4, hdeg]
  · intro h90
    rw [hc, h3, hdeg, h90]
    have : (90 : ℝ) * (Real.pi / 180) = Real.pi / 2 := by ring
    rw [this]

/-- Witness for C8: `rotation` to `"0 90 0"` from the entity's current
rotation `(10, 20, 30)` degrees gives an end `y` of `π / 2` and a start
vector of `(10·π/180, 20·π/180, 30·π/180)`. -/
theorem animC8_rotation_radians_witness :
    (createAndStartAnimation envR false (init ℝ dRot)).config.y = some (Real.pi / 2) ∧
    (createAndStartAnimation envR false (init ℝ dRot)).config.targets = ConfigTargets.vector
      { x := (10 : ℝ) * (Real.pi / 180), y := (20 : ℝ) * (Real.pi / 180), z := (30 : ℝ) * (Real.pi / 180) } := by
  obtain ⟨_, htg, _, _, _, hpi⟩ :=
    animC8_rotation_radians envR (init ℝ dRot) rfl rfl (fun d => rfl)
  refine ⟨hpi ?_, ?_⟩
  · show (envR.parse "0 90 0").y = 90
    simp [envR]
  · rw [htg]
    simp [envR, init, dRot]

/-- Claim C9: when the target property attribute is missing or empty,
`update` clears the playing flag and then does nothing at all: the config
is not rebuilt, no animation handle is created, nothing is emitted, the
listener table and timers are untouched, and no error is possible (the
handler is total). -/
theorem animC9_empty_property_noop (env : Env ℚ) (data : AnimData) (s : State ℚ)
    (hprop : data.property = "") :
    update env data s = { s with data := data, animationIsPlaying := false } := by
  unfold update
  rw [if_pos hprop]

/-- Witness for C9 on the all-defaults attribute record. -/
theorem animC9_empty_property_noop_witness :
    update envQ dEmpty sWait = { sWait with data := dEmpty, animationIsPlaying := false } :=
  animC9_empty_property_noop envQ dEmpty sWait rfl

/-- Claim C10: a configured start event is wired to `beginAnimation`,
which is unguarded: dispatching the event while the component is already
Playing still sets `animationIsPlaying` and emits another
`animationbegin` — begin notifications are not deduplicated. -/
theorem animC10_begin_unguarded (env : Env ℚ) (s : State ℚ) (name : String)
    (h1 : name ∈ s.data.startEvents)
    (h2 : s.animationIsPlaying = true)
    (h3 : handlersFor s name = [Handler.beginAnimation]) :
    (name, Handler.beginAnimation) ∈ (addEventListeners s).listeners ∧
    dispatchEvent env name s = beginAnimation s ∧
    (dispatchEvent env name s).animationIsPlaying = true ∧
    (dispatchEvent env name s).emitted = s.emitted ++ ["animationbegin"] := by
  have hdisp : dispatchEvent env name s = beginAnimation s := by
    unfold dispatchEvent
    rw [h3]
    rfl
  refine ⟨?_, hdisp, ?_, ?_⟩
  · rw [addEventListeners_eq]
    exact rewireAdd_mem_start s name h1
  · rw [hdisp]; rfl
  · rw [hdisp]; rfl

/-- Witness for C10: the waiting component made playing by one begin,
then receiving its start event `"go"`, re-emits `animationbegin`. -/
theorem animC10_begin_unguarded_witness :
    ("go", Handler.beginAnimation) ∈ (addEventListeners (beginAnimation sWait)).listeners ∧
    dispatchEvent envQ "go" (beginAnimation sWait) = beginAnimation (beginAnimation sWait) ∧
    (dispatchEvent envQ "go" (beginAnimation sWait)).animationIsPlaying = true ∧
    (dispatchEvent envQ "go" (beginAnimation sWait)).emitted =
      (beginAnimation sWait).emitted ++ ["animationbegin"] :=
  animC10_begin_unguarded envQ (beginAnimation sWait) "go" (by decide) (by decide) (by decide)

end Anim
